import Mathlib

/-!
Shallow embedding of the `@bodil/opt` TypeScript library (`src/option.ts`,
`src/option-impl.ts`, `src/result.ts`) and theorems checking the
specification's claims against it.

The library provides two tagged-union wrapper classes: `Option<A>` with
variants `Some(value)` / `None`, and `Result<A, E>` with variants `Ok(value)` /
`Err(value)`.  Each runtime instance carries a boolean `result` discriminant
and a single `value` payload slot; the factories `Some`/`None`/`Ok`/`Err` are
the only code that constructs instances (via `Object.create` on the class
prototypes).  We embed the typed view of the instances as two-constructor
inductives (`OptionV`, `ResultV`) whose constructors correspond exactly to the
factory outputs, and embed the untyped runtime world (needed for the
`Option.from`, `Option.is` / `Result.is` and JSON claims, where generics are
erased) as a universe `JSVal` of JavaScript values.  Code that throws is
modelled with `Except`: `Except.error e` stands for "the computation threw the
value `e`".
-/

namespace OptLib

/-- Typed view of an `Option<A>` instance (`src/option-impl.ts`, `OptionClass`):
`Some v` is the factory output with `result := true; value := v`
(`src/option.ts`, `Some`), `None` is the shared singleton with
`result := false` and no `value` assigned (`src/option.ts`, `None`). -/
inductive OptionV (A : Type) where
  | Some : A → OptionV A
  | None : OptionV A
deriving DecidableEq

/-- Typed view of a `Result<A, E>` instance (`src/option-impl.ts`,
`ResultClass`): `Ok v` has `result := true; value := v`, `Err e` has
`result := false; value := e` (`src/result.ts`, `Ok` / `Err`). -/
inductive ResultV (A E : Type) where
  | Ok : A → ResultV A E
  | Err : E → ResultV A E
deriving DecidableEq

/-- `OptionClass.isSome(): return this.result;` -/
def OptionV.isSome {A : Type} : OptionV A → Bool
  | .Some _ => true
  | .None => false

/-- `OptionClass.isNone(): return !this.result;` -/
def OptionV.isNone {A : Type} (o : OptionV A) : Bool :=
  !o.isSome

/-- `OptionClass.chain(f): return this.isSome() ? f(this.value) : None;` -/
def OptionV.chain {A B : Type} : OptionV A → (A → OptionV B) → OptionV B
  | .Some v, f => f v
  | .None, _ => .None

/-- `OptionClass.map(f): return this.isSome() ? Some(f(this.value)) : None;` -/
def OptionV.map {A B : Type} : OptionV A → (A → B) → OptionV B
  | .Some v, f => .Some (f v)
  | .None, _ => .None

/-- `OptionClass.and(option): return this.isNone() ? option : None;`
(note: the receiver being `None` selects the argument, the receiver being
`Some` selects `None`). -/
def OptionV.and {A B : Type} : OptionV A → OptionV B → OptionV B
  | .None, o => o
  | .Some _, _ => .None

/-- `OptionClass.or(option): return this.isNone() ? this : option;`
(note: the receiver being `None` returns the receiver — the `None`
singleton — and the receiver being `Some` returns the argument). -/
def OptionV.or {A : Type} : OptionV A → OptionV A → OptionV A
  | .None, _ => .None
  | .Some _, o => o

/-- `ResultClass.isOk(): return this.result;` -/
def ResultV.isOk {A E : Type} : ResultV A E → Bool
  | .Ok _ => true
  | .Err _ => false

/-- `ResultClass.isErr(): return !this.result;` -/
def ResultV.isErr {A E : Type} (r : ResultV A E) : Bool :=
  !r.isOk

/-- `ResultClass.chain(f)`: if `this.isOk()` return `f(this.value)`, else
return `this` (the `Err`) unchanged. -/
def ResultV.chain {A B E : Type} : ResultV A E → (A → ResultV B E) → ResultV B E
  | .Ok v, f => f v
  | .Err e, _ => .Err e

/-- `ResultClass.map(f)`: if `this.isOk()` return `Ok(f(this.value))`, else
return `this` unchanged. -/
def ResultV.map {A B E : Type} : ResultV A E → (A → B) → ResultV B E
  | .Ok v, f => .Ok (f v)
  | .Err e, _ => .Err e

/-- `ResultClass.ap(f)` (`src/option-impl.ts` lines 177-185): first
`if (f.isErr()) return f;`, then `if (this.isOk()) return Ok(f.value(this.value));`,
finally `return this;` — so the function-side `Err` is checked before the
receiver's own variant.  The TS code returns the existing object through an
unchecked cast; the embedding rebuilds the same variant with the identical
payload. -/
def ResultV.ap {A B E : Type} : ResultV A E → ResultV (A → B) E → ResultV B E
  | _, .Err e => .Err e
  | .Ok v, .Ok g => .Ok (g v)
  | .Err e, .Ok _ => .Err e

/-- `ResultClass.and(result): return this.isOk() ? result : this;` -/
def ResultV.and {A B E : Type} : ResultV A E → ResultV B E → ResultV B E
  | .Ok _, r => r
  | .Err e, _ => .Err e

/-- `ResultClass.or(result): return this.isErr() ? this : result;`
(note: the receiver being `Err` returns the receiver, the receiver being `Ok`
returns the argument).  The TS signature allows a fresh error type `F` through
an unchecked cast of `this`; the embedding takes both sides at the same error
type, which covers every reachable same-typed call. -/
def ResultV.or {A E : Type} : ResultV A E → ResultV A E → ResultV A E
  | .Err e, _ => .Err e
  | .Ok _, r => r

/-- `ResultClass.unwrapExact()`: `if (this.isErr()) { throw this.value; } else
{ return this.value as A; }`.  Throwing is modelled with `Except`:
`Except.error e` means the call threw exactly the stored value `e`. -/
def ResultV.unwrapExact {A E : Type} : ResultV A E → Except E A
  | .Err e => .error e
  | .Ok v => .ok v

/-- `Result.try(f)` (`src/result.ts` lines 245-251): run the thunk, wrap a
normal return in `Ok` and any thrown value in `Err` (`catch (e) { return
Err(e as E); }` — `e` is placed in the payload slot as-is, whatever its type).
A thunk is modelled by its evaluation outcome: `Except.ok v` for a normal
return of `v`, `Except.error e` for throwing `e`. -/
def Result.tryThunk {A T : Type} : Except T A → ResultV A T
  | .ok v => .Ok v
  | .error e => .Err e

/-- `Result.lift(fn)` (`src/result.ts` lines 273-277):
`return (...args) => Result.try(() => fn(...args));`.  A potentially-throwing
function is modelled as a function into evaluation outcomes; the thunk
`() => fn(...args)` has the same outcome as the application `fn(...args)`. -/
def Result.lift {α A T : Type} (fn : α → Except T A) : α → ResultV A T :=
  fun a => Result.tryThunk (fn a)

/-- Universe of JavaScript runtime values, as far as this library can observe
them: the primitives, plain objects (an ordered field list), and the four
kinds of wrapper instances the factories construct.  `someInst` / `noneInst`
are exactly the objects whose prototype is `OptionClass.prototype` (made only
by `Some` / `None`), `okInst` / `errInst` those with `ResultClass.prototype`
(made only by `Ok` / `Err`). -/
inductive JSVal where
  | undefV : JSVal
  | nullV : JSVal
  | boolV : Bool → JSVal
  | numV : Int → JSVal
  | strV : String → JSVal
  | objV : List (String × JSVal) → JSVal
  | someInst : JSVal → JSVal
  | noneInst : JSVal
  | okInst : JSVal → JSVal
  | errInst : JSVal → JSVal

/-- The runtime object a typed `Option` value is: `Some v` was built by the
`Some` factory, `None` is the `None` singleton. -/
def OptionV.toJS : OptionV JSVal → JSVal
  | .Some v => .someInst v
  | .None => .noneInst

/-- The runtime object a typed `Result` value is: built by `Ok` or `Err`. -/
def ResultV.toJS : ResultV JSVal JSVal → JSVal
  | .Ok v => .okInst v
  | .Err e => .errInst e

/-- First-match field lookup in a plain object's field list; a missing key
reads as `undefined`. -/
def getField : List (String × JSVal) → String → JSVal
  | [], _ => .undefV
  | (k', v) :: rest, k => if k = k' then v else getField rest k

/-- Property read `x[k]` as used by this library.  On plain objects it is
field lookup (absent key ↦ `undefined`); on wrapper instances the own
properties are `result` (the discriminant the factory assigned) and `value`
(the payload; never assigned on `None`, so it reads as `undefined`); property
reads on primitives yield `undefined` for the keys this library uses.  (The
library never reads a property of `null`/`undefined`.) -/
def JSVal.get : JSVal → String → JSVal
  | .objV fields, k => getField fields k
  | .someInst v, k =>
    if k = "result" then .boolV true else if k = "value" then v else .undefV
  | .noneInst, k => if k = "result" then .boolV false else .undefV
  | .okInst v, k =>
    if k = "result" then .boolV true else if k = "value" then v else .undefV
  | .errInst v, k =>
    if k = "result" then .boolV false else if k = "value" then v else .undefV
  | _, _ => .undefV

/-- JavaScript truthiness, restricted to this value universe: `undefined`,
`null`, `false`, `0` and `""` are falsy; every other value (including every
object) is truthy. -/
def JSVal.truthy : JSVal → Bool
  | .undefV => false
  | .nullV => false
  | .boolV b => b
  | .numV n => n != 0
  | .strV s => s != ""
  | _ => true

/-- `OptionClass.toJSON()` (`src/option-impl.ts` lines 84-88):
`this.isSome() ? { result: true, value: this.value } : { result: false }` —
for `None` no `value` key is emitted.  Generics are erased at runtime, so the
payload is an arbitrary `JSVal` carried verbatim. -/
def OptionV.toJSON : OptionV JSVal → JSVal
  | .Some v => .objV [("result", .boolV true), ("value", v)]
  | .None => .objV [("result", .boolV false)]

/-- `ResultClass.toJSON()` (`src/option-impl.ts` lines 234-236):
`{ result: this.result, value: this.value }` — both keys are always present. -/
def ResultV.toJSON : ResultV JSVal JSVal → JSVal
  | .Ok v => .objV [("result", .boolV true), ("value", v)]
  | .Err e => .objV [("result", .boolV false), ("value", e)]

/-- `Option.fromJSON(doc)` (`src/option.ts` lines 37-39):
`doc.result ? Some(doc.value as A) : None` — the `as A` cast is a no-op at
runtime, so the produced `Some` holds whatever `doc.value` reads as. -/
def Option.fromJSON (doc : JSVal) : OptionV JSVal :=
  if (doc.get "result").truthy then .Some (doc.get "value") else .None

/-- `Result.fromJSON(doc)` (`src/result.ts` lines 282-284):
`doc.result ? Ok(doc.value as A) : Err(doc.value as E)`. -/
def Result.fromJSON (doc : JSVal) : ResultV JSVal JSVal :=
  if (doc.get "result").truthy then .Ok (doc.get "value") else .Err (doc.get "value")

/-- `Option.from(value)` (`src/option.ts` lines 30-32):
`value === undefined ? None : Some(value as A)` — strict equality with
`undefined` holds exactly for the value `undefined`. -/
def Option.fromValue : JSVal → OptionV JSVal
  | .undefV => .None
  | v => .Some v

/-- `Option.is(value)` (`src/option.ts` lines 44-46):
`value instanceof OptionClass` — true exactly for objects whose prototype
chain contains `OptionClass.prototype`, i.e. the objects the `Some` / `None`
factories made (nothing else in the library creates such objects, and the
class is never subclassed). -/
def Option.isOption : JSVal → Bool
  | .someInst _ => true
  | .noneInst => true
  | _ => false

/-- `Result.is(value)` (`src/result.ts` lines 296-298):
`value instanceof ResultClass`. -/
def Result.isResult : JSVal → Bool
  | .okInst _ => true
  | .errInst _ => true
  | _ => false

/-- C1: the claim states `o.and(b)` returns `b` when `o` is `Some` and `None`
when `o` is `None` (as the `IOption.and` doc comment in `src/option.ts` also
says).  The implementation `this.isNone() ? option : None` does the reverse:
this theorem evaluates the code at the failing inputs, showing
`Some(1).and(Some(2)) = None` and `None.and(Some(2)) = Some(2)`. -/
theorem optionV_and_inverted :
    (OptionV.Some (1 : Int)).and (OptionV.Some (2 : Int)) = OptionV.None ∧
    (OptionV.None : OptionV Int).and (OptionV.Some (2 : Int)) = OptionV.Some 2 :=
  ⟨rfl, rfl⟩

/-- C2: the claim states `or` keeps a `Some`/`Ok` receiver and substitutes the
argument for a `None`/`Err` receiver (as the doc comments in `src/option.ts`
and `src/result.ts` also say).  The implementations
(`this.isNone() ? this : option` and `this.isErr() ? this : result`) do the
reverse on both types: this theorem evaluates the code at the failing inputs. -/
theorem or_inverted :
    (OptionV.Some (1 : Int)).or (OptionV.Some 2) = OptionV.Some 2 ∧
    (OptionV.None : OptionV Int).or (OptionV.Some 2) = OptionV.None ∧
    (ResultV.Ok (1 : Int) : ResultV Int String).or (ResultV.Ok 2) = ResultV.Ok 2 ∧
    (ResultV.Err "e" : ResultV Int String).or (ResultV.Ok 2) = ResultV.Err "e" :=
  ⟨rfl, rfl, rfl, rfl⟩

/-- C3: `r.ap(f)` returns `f`'s error whenever `f` is `Err` (independently of
`r`; in particular `Err(e2).ap(Err(e1)) = Err(e1)`), returns `Ok(g(v))` when
`f = Ok(g)` and `r = Ok(v)`, and propagates `r`'s own `Err` unchanged when `f`
is `Ok` but `r` is `Err`. -/
theorem resultV_ap_spec : ∀ (A B E : Type) (r : ResultV A E) (e e1 e2 : E)
    (g : A → B) (v : A),
    r.ap (ResultV.Err e : ResultV (A → B) E) = ResultV.Err e ∧
    (ResultV.Err e2 : ResultV A E).ap (ResultV.Err e1 : ResultV (A → B) E) =
      ResultV.Err e1 ∧
    (ResultV.Ok v : ResultV A E).ap (ResultV.Ok g : ResultV (A → B) E) =
      ResultV.Ok (g v) ∧
    (ResultV.Err e : ResultV A E).ap (ResultV.Ok g : ResultV (A → B) E) =
      ResultV.Err e := by
  intro A B E r e e1 e2 g v
  refine ⟨?_, rfl, rfl, rfl⟩
  cases r <;> rfl

/-- Witness for C3 at concrete inputs. -/
theorem resultV_ap_spec_witness :
    (ResultV.Ok (3 : Int) : ResultV Int Int).ap
      (ResultV.Ok (fun a => a) : ResultV (Int → Int) Int) = ResultV.Ok 3 :=
  (resultV_ap_spec Int Int Int (ResultV.Ok 3) 0 0 0 (fun a => a) 3).2.2.1

/-- C4: deserialising the serialised form reproduces the value:
`Option.fromJSON(x.toJSON())` equals `x` (structural equality on `JSVal` is
deep equality) and `Result.fromJSON(r.toJSON())` equals `r`, for every
option and every result over runtime payloads; the payload is carried
verbatim through both directions, so payload round-trippability is automatic
in the model. -/
theorem json_roundtrip : ∀ (x : OptionV JSVal) (r : ResultV JSVal JSVal),
    Option.fromJSON x.toJSON = x ∧ Result.fromJSON r.toJSON = r := by
  intro x r
  constructor
  · cases x <;> rfl
  · cases r <;> rfl

/-- Witness for C4 at concrete inputs. -/
theorem json_roundtrip_witness :
    Option.fromJSON (OptionV.Some (JSVal.numV 7)).toJSON =
      OptionV.Some (JSVal.numV 7) ∧
    Result.fromJSON (ResultV.Err (JSVal.strV "e") : ResultV JSVal JSVal).toJSON =
      ResultV.Err (JSVal.strV "e") :=
  json_roundtrip (OptionV.Some (JSVal.numV 7)) (ResultV.Err (JSVal.strV "e"))

/-- C5: `Result.try` wraps a normal return `v` as `Ok(v)` and any thrown value
`e` — of any type, not only `Error` instances — as `Err(e)` with the thrown
value itself as the payload; `Result.lift(fn)` applied to arguments behaves
identically to `Result.try` of the corresponding application. -/
theorem result_try_lift_spec : ∀ (A T α : Type) (v : A) (e : T)
    (fn : α → Except T A) (a : α),
    Result.tryThunk (Except.ok v : Except T A) = ResultV.Ok v ∧
    Result.tryThunk (Except.error e : Except T A) = ResultV.Err e ∧
    Result.lift fn a = Result.tryThunk (fn a) := by
  intro A T α v e fn a
  exact ⟨rfl, rfl, rfl⟩

/-- Witness for C5 at concrete inputs (a thrown non-`Error` value: a bare
string). -/
theorem result_try_lift_spec_witness :
    Result.tryThunk (Except.error "boom" : Except String Int) =
      ResultV.Err "boom" :=
  (result_try_lift_spec Int String Unit 0 "boom" (fun _ => Except.ok 0) ()).2.1

/-- C6: `unwrapExact()` returns the contained success value on `Ok`, and on
`Err` throws exactly the contained error value — the identical payload,
unwrapped and unmodified. -/
theorem resultV_unwrapExact_spec : ∀ (A E : Type) (v : A) (e : E),
    (ResultV.Ok v : ResultV A E).unwrapExact = Except.ok v ∧
    (ResultV.Err e : ResultV A E).unwrapExact = Except.error e := by
  intro A E v e
  exact ⟨rfl, rfl⟩

/-- Witness for C6 at concrete inputs (`Ok(5)` returns `5`). -/
theorem resultV_unwrapExact_spec_witness :
    (ResultV.Ok (5 : Int) : ResultV Int String).unwrapExact = Except.ok 5 :=
  (resultV_unwrapExact_spec Int String 5 "x").1

/-- C7: functor/monad laws for `Option`: `Some(v).map(f) = Some(f(v))`;
`None.map(f) = None`, and the result on `None` is independent of `f` (the
function is never invoked); `Some(v).chain(f) = f(v)` (left identity); and
`opt.chain(Some) = opt` (right identity). -/
theorem optionV_functor_monad_laws : ∀ (A B : Type) (v : A) (f f' : A → B)
    (g : A → OptionV B) (o : OptionV A),
    (OptionV.Some v).map f = OptionV.Some (f v) ∧
    (OptionV.None : OptionV A).map f = OptionV.None ∧
    (OptionV.None : OptionV A).map f = (OptionV.None : OptionV A).map f' ∧
    (OptionV.Some v).chain g = g v ∧
    o.chain OptionV.Some = o := by
  intro A B v f f' g o
  refine ⟨rfl, rfl, rfl, rfl, ?_⟩
  cases o <;> rfl

/-- Witness for C7 at concrete inputs. -/
theorem optionV_functor_monad_laws_witness :
    (OptionV.Some (2 : Int)).map (fun n => n) = OptionV.Some 2 :=
  (optionV_functor_monad_laws Int Int 2 (fun n => n) (fun n => n)
    (fun n => OptionV.Some n) (OptionV.Some 2)).1

/-- C8: `Option.from(v)` returns `None` exactly when `v` is `undefined`, and
`Some(v)` for every other value; in particular falsy-but-defined values do
not collapse: `Option.from(0) = Some(0)`. -/
theorem option_from_spec : ∀ (v : JSVal),
    (Option.fromValue v = OptionV.None ↔ v = JSVal.undefV) ∧
    (Option.fromValue v = OptionV.Some v ∨ Option.fromValue v = OptionV.None) ∧
    Option.fromValue (JSVal.numV 0) = OptionV.Some (JSVal.numV 0) := by
  intro v
  refine ⟨?_, ?_, rfl⟩ <;> cases v <;> simp [Option.fromValue]

/-- Witness for C8 at concrete inputs. -/
theorem option_from_spec_witness :
    Option.fromValue (JSVal.numV 0) = OptionV.Some (JSVal.numV 0) ∧
    Option.fromValue JSVal.undefV = OptionV.None :=
  ⟨(option_from_spec (JSVal.numV 0)).2.2,
   ((option_from_spec JSVal.undefV).1).mpr rfl⟩

/-- C9: `Option.is(x)` is true exactly for the runtime values the `Some` /
`None` factories construct, and `Result.is(x)` exactly for those of `Ok` /
`Err`; both are false on a plain object shaped like the JSON form, on `null`
and `undefined`, and on instances of the other type. -/
theorem option_is_result_is_spec : ∀ (x : JSVal),
    (Option.isOption x = true ↔ ∃ o : OptionV JSVal, x = o.toJS) ∧
    (Result.isResult x = true ↔ ∃ r : ResultV JSVal JSVal, x = r.toJS) ∧
    Option.isOption (JSVal.objV [("result", JSVal.boolV true), ("value", JSVal.numV 1)]) = false ∧
    Option.isOption JSVal.nullV = false ∧
    Option.isOption JSVal.undefV = false ∧
    Option.isOption ((ResultV.Ok (JSVal.numV 1) : ResultV JSVal JSVal).toJS) = false ∧
    Result.isResult (JSVal.objV [("result", JSVal.boolV true), ("value", JSVal.numV 1)]) = false ∧
    Result.isResult JSVal.nullV = false ∧
    Result.isResult JSVal.undefV = false ∧
    Result.isResult ((OptionV.Some (JSVal.numV 1)).toJS) = false := by
  intro x
  refine ⟨?_, ?_, rfl, rfl, rfl, rfl, rfl, rfl, rfl, rfl⟩
  · constructor
    · intro h
      cases x <;> simp [Option.isOption] at h
      · exact ⟨OptionV.Some _, rfl⟩
      · exact ⟨OptionV.None, rfl⟩
    · rintro ⟨o, rfl⟩
      cases o <;> rfl
  · constructor
    · intro h
      cases x <;> simp [Result.isResult] at h
      · exact ⟨ResultV.Ok _, rfl⟩
      · exact ⟨ResultV.Err _, rfl⟩
    · rintro ⟨r, rfl⟩
      cases r <;> rfl

/-- Witness for C9 at concrete inputs. -/
theorem option_is_result_is_spec_witness :
    Option.isOption ((OptionV.Some (JSVal.numV 1)).toJS) = true ∧
    Result.isResult ((OptionV.Some (JSVal.numV 1)).toJS) = false :=
  ⟨((option_is_result_is_spec ((OptionV.Some (JSVal.numV 1)).toJS)).1).mpr
      ⟨OptionV.Some (JSVal.numV 1), rfl⟩,
   (option_is_result_is_spec (JSVal.numV 1)).2.2.2.2.2.2.2.2.2⟩

/-- C10: `Option` and `Result` share one wire shape: `Some(x).toJSON()` and
`Ok(x).toJSON()` are the same plain object `{result: true, value: x}`, and
consequently `Option.fromJSON` applied to a serialised `Ok(x)` yields
`Some(x)` — the two types cannot be told apart from their JSON form. -/
theorem shared_wire_shape : ∀ (x : JSVal),
    (OptionV.Some x).toJSON = (ResultV.Ok x : ResultV JSVal JSVal).toJSON ∧
    (OptionV.Some x).toJSON =
      JSVal.objV [("result", JSVal.boolV true), ("value", x)] ∧
    Option.fromJSON (ResultV.Ok x : ResultV JSVal JSVal).toJSON =
      OptionV.Some x := by
  intro x
  exact ⟨rfl, rfl, rfl⟩

/-- Witness for C10 at a concrete input. -/
theorem shared_wire_shape_witness :
    Option.fromJSON (ResultV.Ok (JSVal.numV 9) : ResultV JSVal JSVal).toJSON =
      OptionV.Some (JSVal.numV 9) :=
  (shared_wire_shape (JSVal.numV 9)).2.2

end OptLib
